import Mathlib

/-!
Verification of the OpenHMD NOLO VR driver (src/drv_nolo/nolo.c):
the report framing and dispatch layer.  The C source is shallowly
embedded: the dispatch switch and the polling loop of update_device
become Lean functions producing the trace of decoder invocations,
getf becomes a pure function on the device state, and open_device
becomes a function over the outcomes of its external calls recording
which resources were acquired and released.
-/

namespace Nolo

/-- Modelled from the spec: the report size FEATURE_BUFFER_SIZE comes from
nolo.h, which is not part of the sources; the spec fixes it at 64 bytes. -/
abbrev FEATURE_BUFFER_SIZE : Nat := 64

/-- nolo.c line 21: static const int controllerLength = 3 + (3+4)*2 + 2 + 2 + 1. -/
def controllerLength : Nat := 3 + (3+4)*2 + 2 + 2 + 1

/-- nolo.c line 63: the HMD marker window starts at buffer+0x15. -/
def hmdMarkerOffset : Nat := 0x15

/-- nolo.c line 64: the base-station window starts at buffer+0x36. -/
def baseStationOffset : Nat := 0x36

/-- nolo.c line 60: the secondary controller window starts at buffer+64-controllerLength. -/
def controller1Offset : Nat := 64 - controllerLength

/-- One report read from the HID transport: a fixed-size byte buffer.
Byte values are naturals (the C unsigned char payload). -/
def Report : Type := Fin FEATURE_BUFFER_SIZE → Nat

/-- One invocation of an external Pose Decoder, with the device identity and
the window start offset into the report buffer (nolo.c lines 59-64). -/
inductive DecodeCall where
  | controller (idx : Nat) (off : Nat)
  | hmdMarker (off : Nat)
  | baseStation (off : Nat)
deriving DecidableEq, Repr

/-- What the switch of update_device produces for one report: the decoder
invocations in order, and the log messages emitted. -/
structure DispatchOut where
  calls : List DecodeCall
  log : List String
deriving DecidableEq, Repr

/-- The switch on buffer[0] in update_device, nolo.c lines 57-68:
tag 0xa5 decodes controller 0 at offset 1 then controller 1 at offset
64-controllerLength; tag 0xa6 decodes the HMD marker at 0x15 and the base
station at 0x36; any other tag only logs. -/
def dispatch (buffer : Report) : DispatchOut :=
  if buffer 0 = 0xa5 then
    { calls := [.controller 0 1, .controller 1 (64 - controllerLength)], log := [] }
  else if buffer 0 = 0xa6 then
    { calls := [.hmdMarker hmdMarkerOffset, .baseStation baseStationOffset], log := [] }
  else
    { calls := [], log := ["unknown message type: %u"] }

/-- One result of hid_read in the polling loop: a report of positive size,
size 0 (no data), or a negative error. -/
inductive ReadResult where
  | ok (r : Report)
  | empty
  | err

/-- How one invocation of update_device ended: size == 0 (normal),
size < 0 (logged error); exhausted marks a transport model that never
terminates the loop (unreachable under the claims' hypotheses). -/
inductive PollExit where
  | noData
  | readError
  | exhausted
deriving DecidableEq, Repr

/-- The observable behaviour of one update_device invocation: how many
hid_read calls were made, which reports were dispatched in order, the
decoder invocations, the log, and how the loop exited. -/
structure PollOut where
  reads : Nat
  dispatched : List Report
  calls : List DecodeCall
  log : List String
  exit : PollExit

/-- The polling loop of update_device, nolo.c lines 47-69, over a transport
modelled as the list of successive hid_read results: size < 0 logs and
returns, size == 0 returns, a report is dispatched and the loop continues. -/
def update_device : List ReadResult → PollOut
  | [] => ⟨0, [], [], [], .exhausted⟩
  | .err :: _ => ⟨1, [], [], ["error reading from device"], .readError⟩
  | .empty :: _ => ⟨1, [], [], [], .noData⟩
  | .ok r :: rest =>
    ⟨(update_device rest).reads + 1,
     r :: (update_device rest).dispatched,
     (dispatch r).calls ++ (update_device rest).calls,
     (dispatch r).log ++ (update_device rest).log,
     (update_device rest).exit⟩

/-- Run a list of decoder invocations over the device-pose state, the
decoders themselves being external (spec section 4.3): decode is an
arbitrary interpretation of one call. -/
def runCalls {σ : Type} (decode : DecodeCall → σ → σ) : List DecodeCall → σ → σ
  | [], s => s
  | c :: cs, s => runCalls decode cs (decode c s)

/-- The polling loop of update_device acting on the device-pose state:
poses are mutated only through the decoder invocations of each dispatched
report (nolo.c lines 47-69). -/
def update_device_state {σ : Type} (decode : DecodeCall → σ → σ) :
    List ReadResult → σ → σ
  | [], s => s
  | .err :: _, s => s
  | .empty :: _, s => s
  | .ok r :: rest, s =>
    update_device_state decode rest (runCalls decode (dispatch r).calls s)

/-- A rotation quaternion: four floats, as quatf in the OpenHMD headers. -/
structure quatf where
  x : Float
  y : Float
  z : Float
  w : Float

/-- A position vector: three floats, as vec3f in the OpenHMD headers. -/
structure vec3f where
  x : Float
  y : Float
  z : Float

/-- Modelled from the spec: the driver context, on which ohmd_set_error
records a caller-visible error message (ohmd.h is not in the sources). -/
structure ohmd_context where
  error : Option String

/-- The device base of drv_priv: the context pointer and the persisted
Device Pose (rotation and position), as read by getf in nolo.c lines 82-87. -/
structure ohmd_device_base where
  ctx : ohmd_context
  rotation : quatf
  position : vec3f

/-- The driver-private state drv_priv, as far as getf touches it. -/
structure drv_priv where
  base : ohmd_device_base

/-- Modelled from the spec: the host value-kind enum ohmd_float_value
(ohmd.h is not in the sources).  The spec names only ROTATION_QUAT and
POSITION_VECTOR; every other enum member is collapsed into other, which
carries its raw value. -/
inductive ohmd_float_value where
  | OHMD_ROTATION_QUAT
  | OHMD_POSITION_VECTOR
  | other (raw : Nat)
deriving DecidableEq

/-- The C store through the out pointer in getf line 82,
  *(quatf*)out = priv->base.rotation:
the first four floats of the caller buffer are overwritten, the rest kept. -/
def writeQuat (q : quatf) (out : List Float) : List Float :=
  q.x :: q.y :: q.z :: q.w :: out.drop 4

/-- The C store through the out pointer in getf line 87,
  *(vec3f*)out = priv->base.position:
the first three floats of the caller buffer are overwritten, the rest kept. -/
def writeVec (v : vec3f) (out : List Float) : List Float :=
  v.x :: v.y :: v.z :: out.drop 3

/-- The message ohmd_set_error records in getf, nolo.c line 91. -/
def getfErrorMsg : String := "invalid type given to getf (%ud)"

/-- What one getf call produces: the int return value, the caller buffer
after the call, and the driver state after the call. -/
structure GetfOut where
  ret : Int
  out : List Float
  priv : drv_priv

/-- getf, nolo.c lines 75-97: copy the rotation quaternion or the position
vector into the caller buffer and return 0, or record an invalid-type
error on the context and return -1. -/
def getf (priv : drv_priv) (type : ohmd_float_value) (out : List Float) : GetfOut :=
  match type with
  | .OHMD_ROTATION_QUAT => ⟨0, writeQuat priv.base.rotation out, priv⟩
  | .OHMD_POSITION_VECTOR => ⟨0, writeVec priv.base.position out, priv⟩
  | .other _ =>
    ⟨-1, out,
      { priv with base := { priv.base with ctx := { error := some getfErrorMsg } } }⟩

/-- The outcomes of the external calls made by open_device, nolo.c lines
123-162: whether ohmd_alloc succeeds, whether hid_open_path returns a
handle, and whether hid_set_nonblocking succeeds. -/
structure OpenEnv where
  allocOk : Bool
  hidOpenOk : Bool
  nonblockOk : Bool

/-- The resource accounting of one open_device call: whether the private
state was allocated and freed, whether the HID handle was opened and
closed, whether a device was returned, and the error recorded, if any. -/
structure OpenOut where
  privAllocated : Bool
  privFreed : Bool
  hidOpened : Bool
  hidClosed : Bool
  returnedDevice : Bool
  error : Option String
deriving DecidableEq, Repr

/-- open_device, nolo.c lines 123-162: allocate drv_priv, open the HID
path, set non-blocking; each failure goes to cleanup, which frees priv if
non-null and returns NULL.  No path of open_device calls hid_close. -/
def open_device (env : OpenEnv) : OpenOut :=
  if !env.allocOk then
    { privAllocated := false, privFreed := false, hidOpened := false,
      hidClosed := false, returnedDevice := false, error := none }
  else if !env.hidOpenOk then
    { privAllocated := true, privFreed := true, hidOpened := false,
      hidClosed := false, returnedDevice := false,
      error := some "Could not open %s. Check your rights." }
  else if !env.nonblockOk then
    { privAllocated := true, privFreed := true, hidOpened := true,
      hidClosed := false, returnedDevice := false,
      error := some "failed to set non-blocking on device" }
  else
    { privAllocated := true, privFreed := false, hidOpened := true,
      hidClosed := false, returnedDevice := true, error := none }

/-- A test report whose tag byte is 0xa5 (controllers) and payload zero. -/
def reportA5 : Report := fun i => if i.val = 0 then 0xa5 else 0

/-- A test report whose tag byte is 0xa6 (HMD) and payload zero. -/
def reportA6 : Report := fun i => if i.val = 0 then 0xa6 else 0

/-- A test report with the unrecognized tag 0xff and payload zero. -/
def reportFF : Report := fun i => if i.val = 0 then 0xff else 0

/-- A decoder interpretation for tests: record each invocation by
prepending it to a list. -/
def consDecode : DecodeCall → List DecodeCall → List DecodeCall :=
  fun c s => c :: s

/-- A concrete device state for tests. -/
def testPriv : drv_priv :=
  { base := { ctx := { error := none },
              rotation := { x := 1.0, y := 2.0, z := 3.0, w := 4.0 },
              position := { x := 5.0, y := 6.0, z := 7.0 } } }

/-- Helper: reads performed over a run of successful reads. -/
theorem update_device_reads_append (rs : List Report) (rest : List ReadResult) :
    (update_device (rs.map ReadResult.ok ++ rest)).reads =
      rs.length + (update_device rest).reads := by
  induction rs with
  | nil => simp
  | cons r rs ih => simp [update_device, ih]; omega

/-- Helper: reports dispatched over a run of successful reads. -/
theorem update_device_dispatched_append (rs : List Report) (rest : List ReadResult) :
    (update_device (rs.map ReadResult.ok ++ rest)).dispatched =
      rs ++ (update_device rest).dispatched := by
  induction rs with
  | nil => simp
  | cons r rs ih => simp [update_device, ih]

/-- Helper: decoder invocations over a run of successful reads. -/
theorem update_device_calls_append (rs : List Report) (rest : List ReadResult) :
    (update_device (rs.map ReadResult.ok ++ rest)).calls =
      (rs.map (fun r => (dispatch r).calls)).flatten ++ (update_device rest).calls := by
  induction rs with
  | nil => simp
  | cons r rs ih => simp [update_device, ih]

/-- Helper: log emitted over a run of successful reads. -/
theorem update_device_log_append (rs : List Report) (rest : List ReadResult) :
    (update_device (rs.map ReadResult.ok ++ rest)).log =
      (rs.map (fun r => (dispatch r).log)).flatten ++ (update_device rest).log := by
  induction rs with
  | nil => simp
  | cons r rs ih => simp [update_device, ih]

/-- Helper: the loop exit is decided by what follows the successful reads. -/
theorem update_device_exit_append (rs : List Report) (rest : List ReadResult) :
    (update_device (rs.map ReadResult.ok ++ rest)).exit = (update_device rest).exit := by
  induction rs with
  | nil => rfl
  | cons r rs ih => simp [update_device, ih]

/-- C1: every report tagged 0xa5 makes the dispatcher invoke the controller
decoder exactly twice, first for index 0 at offset 1, then for index 1 at
offset 64 - controllerLength = 42; the windows of length controllerLength
are disjoint and both lie within the 64-byte report. -/
theorem controllers_tag_dispatch (r : Report) (h : r 0 = 0xa5) :
    (dispatch r).calls =
      [DecodeCall.controller 0 1, DecodeCall.controller 1 (64 - controllerLength)] ∧
    1 + controllerLength ≤ 64 - controllerLength ∧
    64 - controllerLength + controllerLength ≤ 64 := by
  refine ⟨?_, by decide, by decide⟩
  simp [dispatch, h]

/-- C1 witness: the dispatch of a concrete 0xa5-tagged report. -/
theorem controllers_tag_dispatch_witness :
    (dispatch reportA5).calls =
      [DecodeCall.controller 0 1, DecodeCall.controller 1 (64 - controllerLength)] ∧
    1 + controllerLength ≤ 64 - controllerLength ∧
    64 - controllerLength + controllerLength ≤ 64 :=
  controllers_tag_dispatch reportA5 (by decide)

/-- C2: every report tagged 0xa6 makes the dispatcher invoke the HMD marker
decoder exactly once at offset 0x15 and the base-station decoder exactly
once at offset 0x36, and no controller decoder at all. -/
theorem hmd_tag_dispatch (r : Report) (h : r 0 = 0xa6) :
    (dispatch r).calls =
      [DecodeCall.hmdMarker hmdMarkerOffset, DecodeCall.baseStation baseStationOffset] ∧
    hmdMarkerOffset = 21 ∧ baseStationOffset = 54 ∧
    (dispatch r).calls.count (DecodeCall.hmdMarker hmdMarkerOffset) = 1 ∧
    (dispatch r).calls.count (DecodeCall.baseStation baseStationOffset) = 1 ∧
    ∀ i off, DecodeCall.controller i off ∉ (dispatch r).calls := by
  have hd : dispatch r =
      ⟨[DecodeCall.hmdMarker hmdMarkerOffset, DecodeCall.baseStation baseStationOffset], []⟩ := by
    simp [dispatch, h]
  rw [hd]
  refine ⟨rfl, by decide, by decide, by decide, by decide, ?_⟩
  intro i off
  simp

/-- C2 witness: the dispatch of a concrete 0xa6-tagged report. -/
theorem hmd_tag_dispatch_witness :
    (dispatch reportA6).calls =
      [DecodeCall.hmdMarker hmdMarkerOffset, DecodeCall.baseStation baseStationOffset] ∧
    hmdMarkerOffset = 21 ∧ baseStationOffset = 54 ∧
    (dispatch reportA6).calls.count (DecodeCall.hmdMarker hmdMarkerOffset) = 1 ∧
    (dispatch reportA6).calls.count (DecodeCall.baseStation baseStationOffset) = 1 ∧
    ∀ i off, DecodeCall.controller i off ∉ (dispatch reportA6).calls :=
  hmd_tag_dispatch reportA6 (by decide)

/-- C3: a report with a tag other than 0xa5 and 0xa6 produces no decoder
invocation and leaves every device pose unchanged, and the polling loop
continues: the next queued report is still read and dispatched in the same
invocation. -/
theorem unknown_tag_skipped {σ : Type} (decode : DecodeCall → σ → σ) (s : σ)
    (r : Report) (rest : List ReadResult)
    (h5 : r 0 ≠ 0xa5) (h6 : r 0 ≠ 0xa6) :
    (dispatch r).calls = [] ∧
    runCalls decode (dispatch r).calls s = s ∧
    update_device_state decode (ReadResult.ok r :: rest) s =
      update_device_state decode rest s ∧
    (update_device (ReadResult.ok r :: rest)).reads = (update_device rest).reads + 1 ∧
    (update_device (ReadResult.ok r :: rest)).dispatched =
      r :: (update_device rest).dispatched ∧
    (update_device (ReadResult.ok r :: rest)).calls = (update_device rest).calls ∧
    (update_device (ReadResult.ok r :: rest)).exit = (update_device rest).exit := by
  have hd : dispatch r = ⟨[], ["unknown message type: %u"]⟩ := by
    simp [dispatch, h5, h6]
  refine ⟨by rw [hd], by rw [hd]; rfl, ?_, rfl, rfl, by simp [update_device, hd], rfl⟩
  show update_device_state decode rest (runCalls decode (dispatch r).calls s) = _
  rw [hd]
  rfl

/-- C3 witness: a concrete 0xff-tagged report followed by a queued report. -/
theorem unknown_tag_skipped_witness :
    (dispatch reportFF).calls = [] ∧
    runCalls consDecode (dispatch reportFF).calls [] = [] ∧
    update_device_state consDecode (ReadResult.ok reportFF :: [ReadResult.ok reportA5, ReadResult.empty]) [] =
      update_device_state consDecode [ReadResult.ok reportA5, ReadResult.empty] [] ∧
    (update_device (ReadResult.ok reportFF :: [ReadResult.ok reportA5, ReadResult.empty])).reads =
      (update_device [ReadResult.ok reportA5, ReadResult.empty]).reads + 1 ∧
    (update_device (ReadResult.ok reportFF :: [ReadResult.ok reportA5, ReadResult.empty])).dispatched =
      reportFF :: (update_device [ReadResult.ok reportA5, ReadResult.empty]).dispatched ∧
    (update_device (ReadResult.ok reportFF :: [ReadResult.ok reportA5, ReadResult.empty])).calls =
      (update_device [ReadResult.ok reportA5, ReadResult.empty]).calls ∧
    (update_device (ReadResult.ok reportFF :: [ReadResult.ok reportA5, ReadResult.empty])).exit =
      (update_device [ReadResult.ok reportA5, ReadResult.empty]).exit :=
  unknown_tag_skipped consDecode [] reportFF [ReadResult.ok reportA5, ReadResult.empty]
    (by decide) (by decide)

/-- C4: over a transport yielding n positive-size reads and then a
zero-size or error read, the polling loop performs exactly n + 1 reads,
dispatches exactly the n reports in order, and stops: whatever follows the
terminating read is never reached.  A zero-size read ends the loop
normally; a negative read logs the transport-read failure and ends it. -/
theorem polling_loop_spec (rs : List Report) (t : ReadResult) (extra : List ReadResult)
    (ht : t = ReadResult.empty ∨ t = ReadResult.err) :
    (update_device (rs.map ReadResult.ok ++ t :: extra)).reads = rs.length + 1 ∧
    (update_device (rs.map ReadResult.ok ++ t :: extra)).dispatched = rs ∧
    (update_device (rs.map ReadResult.ok ++ t :: extra)).calls =
      (rs.map (fun r => (dispatch r).calls)).flatten ∧
    (t = ReadResult.empty →
      (update_device (rs.map ReadResult.ok ++ t :: extra)).exit = PollExit.noData) ∧
    (t = ReadResult.err →
      (update_device (rs.map ReadResult.ok ++ t :: extra)).exit = PollExit.readError ∧
      "error reading from device" ∈ (update_device (rs.map ReadResult.ok ++ t :: extra)).log) := by
  rcases ht with h | h <;> subst h
  · refine ⟨?_, ?_, ?_, fun _ => ?_, fun h => ReadResult.noConfusion h⟩
    · rw [update_device_reads_append]; rfl
    · rw [update_device_dispatched_append]; simp [update_device]
    · rw [update_device_calls_append]; simp [update_device]
    · rw [update_device_exit_append]; rfl
  · refine ⟨?_, ?_, ?_, fun h => ReadResult.noConfusion h, fun _ => ⟨?_, ?_⟩⟩
    · rw [update_device_reads_append]; rfl
    · rw [update_device_dispatched_append]; simp [update_device]
    · rw [update_device_calls_append]; simp [update_device]
    · rw [update_device_exit_append]; rfl
    · rw [update_device_log_append]; simp [update_device]

/-- C4 witness: one 0xa5 report followed by an error read and junk. -/
theorem polling_loop_spec_witness :
    (update_device ([reportA5].map ReadResult.ok ++ ReadResult.err :: [ReadResult.ok reportA6])).reads = [reportA5].length + 1 ∧
    (update_device ([reportA5].map ReadResult.ok ++ ReadResult.err :: [ReadResult.ok reportA6])).dispatched = [reportA5] ∧
    (update_device ([reportA5].map ReadResult.ok ++ ReadResult.err :: [ReadResult.ok reportA6])).calls =
      ([reportA5].map (fun r => (dispatch r).calls)).flatten ∧
    (ReadResult.err = ReadResult.empty →
      (update_device ([reportA5].map ReadResult.ok ++ ReadResult.err :: [ReadResult.ok reportA6])).exit = PollExit.noData) ∧
    (ReadResult.err = ReadResult.err →
      (update_device ([reportA5].map ReadResult.ok ++ ReadResult.err :: [ReadResult.ok reportA6])).exit = PollExit.readError ∧
      "error reading from device" ∈ (update_device ([reportA5].map ReadResult.ok ++ ReadResult.err :: [ReadResult.ok reportA6])).log) :=
  polling_loop_spec [reportA5] ReadResult.err [ReadResult.ok reportA6] (Or.inr rfl)

/-- C9: when the first read returns size 0, update_device makes exactly one
read call, invokes no decoder, exits normally, and leaves every device
pose unchanged. -/
theorem zero_size_first_read {σ : Type} (decode : DecodeCall → σ → σ) (s : σ)
    (rest : List ReadResult) :
    (update_device (ReadResult.empty :: rest)).reads = 1 ∧
    (update_device (ReadResult.empty :: rest)).dispatched = [] ∧
    (update_device (ReadResult.empty :: rest)).calls = [] ∧
    (update_device (ReadResult.empty :: rest)).exit = PollExit.noData ∧
    update_device_state decode (ReadResult.empty :: rest) s = s :=
  ⟨rfl, rfl, rfl, rfl, rfl⟩

/-- C6: the compile-time constants reproduce the wire contract:
controllerLength = 22, the secondary controller offset is 42, the marker
offset is 21, the base-station offset is 54, and the two controller
windows do not overlap. -/
theorem wire_constants :
    controllerLength = 22 ∧
    64 - controllerLength = 42 ∧
    controller1Offset = 42 ∧
    hmdMarkerOffset = 21 ∧
    baseStationOffset = 54 ∧
    1 + controllerLength ≤ 64 - controllerLength := by
  decide

/-- C5: getf fails, returning a negative value and recording the
invalid-type error on the context, exactly when the requested kind is
neither ROTATION_QUAT nor POSITION_VECTOR; for ROTATION_QUAT it copies the
four floats of the rotation quaternion into the output and returns 0, for
POSITION_VECTOR the three floats of the position vector. -/
theorem getf_type_spec (p : drv_priv) (t : ohmd_float_value) (out : List Float) :
    (((getf p t out).ret < 0 ∧
        (getf p t out).priv.base.ctx.error = some getfErrorMsg) ↔
      (t ≠ ohmd_float_value.OHMD_ROTATION_QUAT ∧
       t ≠ ohmd_float_value.OHMD_POSITION_VECTOR)) ∧
    (t = ohmd_float_value.OHMD_ROTATION_QUAT →
      (getf p t out).ret = 0 ∧
      (getf p t out).out.take 4 =
        [p.base.rotation.x, p.base.rotation.y, p.base.rotation.z, p.base.rotation.w]) ∧
    (t = ohmd_float_value.OHMD_POSITION_VECTOR →
      (getf p t out).ret = 0 ∧
      (getf p t out).out.take 3 =
        [p.base.position.x, p.base.position.y, p.base.position.z]) := by
  cases t <;> simp [getf, writeQuat, writeVec]

/-- C8: getf is an exact copy of the stored pose: for every device state,
reading ROTATION_QUAT yields precisely the four stored quaternion floats
and reading POSITION_VECTOR precisely the three stored vector floats, with
no transformation. -/
theorem getf_roundtrip_exact (p : drv_priv) (out out' : List Float) :
    ((getf p ohmd_float_value.OHMD_ROTATION_QUAT out).ret = 0 ∧
     (getf p ohmd_float_value.OHMD_ROTATION_QUAT out).out.take 4 =
       [p.base.rotation.x, p.base.rotation.y, p.base.rotation.z, p.base.rotation.w]) ∧
    ((getf p ohmd_float_value.OHMD_POSITION_VECTOR out').ret = 0 ∧
     (getf p ohmd_float_value.OHMD_POSITION_VECTOR out').out.take 3 =
       [p.base.position.x, p.base.position.y, p.base.position.z]) :=
  ⟨⟨rfl, rfl⟩, ⟨rfl, rfl⟩⟩

/-- C10: getf on an unsupported kind leaves the caller buffer completely
unchanged and the stored pose untouched; its only effects are recording
the error on the context and returning -1. -/
theorem getf_invalid_type_frame (p : drv_priv) (t : ohmd_float_value) (out : List Float)
    (h5 : t ≠ ohmd_float_value.OHMD_ROTATION_QUAT)
    (h6 : t ≠ ohmd_float_value.OHMD_POSITION_VECTOR) :
    (getf p t out).out = out ∧
    (getf p t out).priv.base.rotation = p.base.rotation ∧
    (getf p t out).priv.base.position = p.base.position ∧
    (getf p t out).ret = -1 ∧
    (getf p t out).priv.base.ctx.error = some getfErrorMsg := by
  cases t with
  | OHMD_ROTATION_QUAT => exact absurd rfl h5
  | OHMD_POSITION_VECTOR => exact absurd rfl h6
  | other raw => exact ⟨rfl, rfl, rfl, rfl, rfl⟩

/-- C10 witness: getf at a concrete state and a concrete unsupported kind. -/
theorem getf_invalid_type_frame_witness :
    (getf testPriv (ohmd_float_value.other 3) []).out = [] ∧
    (getf testPriv (ohmd_float_value.other 3) []).priv.base.rotation = testPriv.base.rotation ∧
    (getf testPriv (ohmd_float_value.other 3) []).priv.base.position = testPriv.base.position ∧
    (getf testPriv (ohmd_float_value.other 3) []).ret = -1 ∧
    (getf testPriv (ohmd_float_value.other 3) []).priv.base.ctx.error = some getfErrorMsg :=
  getf_invalid_type_frame testPriv (ohmd_float_value.other 3) []
    (by decide) (by decide)

/-- C7 evaluation at the failing input: when allocation and hid_open_path
succeed but hid_set_nonblocking fails, open_device frees the private state
and returns NULL, but never closes the HID handle it opened: the handle is
leaked, contradicting the guaranteed-release claim. -/
theorem open_device_nonblock_fail_leaks_handle :
    open_device ⟨true, true, false⟩ =
      { privAllocated := true, privFreed := true, hidOpened := true,
        hidClosed := false, returnedDevice := false,
        error := some "failed to set non-blocking on device" } ∧
    (open_device ⟨true, true, false⟩).hidOpened = true ∧
    (open_device ⟨true, true, false⟩).hidClosed = false := by
  refine ⟨rfl, rfl, rfl⟩

end Nolo
